import Mathlib

/-!
Shallow embedding of the authentication/session core and the attachment
upload saga of the `splose-clone-be` service, together with proofs of the
behavioural properties stated in its specification.

Modelling conventions:
* Go machine state (repository stores, side-effect traces) is passed
  explicitly; fallible calls return `Except`/`Option` values.
* Cryptography is symbolic (ideal): an HMAC signature is represented by the
  triple (algorithm, signing secret, signed payload) and verification is
  equality of triples; a bcrypt hash is an injective tagged string and the
  comparison succeeds exactly on the hash of the compared password.  This is
  the standard perfect-crypto idealisation: collisions and forgeries are
  assumed impossible.
* `time.Now()` is threaded as an explicit natural-number parameter
  (Unix seconds for tokens, milliseconds for storage keys).
-/

deriving instance DecidableEq for Except

namespace Splose

/- ===================== pkg/auth/jwt.go ===================== -/

/-- `auth.TokenType` differentiates access tokens from refresh tokens
(`jwt.go` lines 11-17). -/
inductive TokenType where
  | access
  | refresh
deriving DecidableEq, Repr

/-- JWT signing algorithms relevant to the model.  `generate` always uses
HS256; `Parse`'s keyfunc accepts any HMAC-family method and rejects the
rest (`jwt.go` lines 77-80). -/
inductive Alg where
  | HS256
  | HS384
  | HS512
  | RS256
  | ES256
  | algNone
deriving DecidableEq, Repr

/-- The Go-side check `t.Method.(*jwt.SigningMethodHMAC)`: membership of the
HMAC family. -/
def Alg.isHMAC : Alg → Bool
  | .HS256 => true
  | .HS384 => true
  | .HS512 => true
  | _ => false

/-- `auth.Claims` (`jwt.go` lines 21-26): application fields plus the
registered `iat`/`exp` claims, in Unix seconds. -/
structure Claims where
  userID : String
  role : String
  tokenType : TokenType
  issuedAt : Nat
  expiresAt : Nat
deriving DecidableEq, Repr

/-- Symbolic HMAC signature over the encoded header+payload: the algorithm,
the signing secret and the signed claims.  Two signatures are equal exactly
when algorithm, secret and payload all agree (ideal MAC). -/
structure MacSig where
  alg : Alg
  secret : String
  payload : Claims
deriving DecidableEq, Repr

/-- A well-formed serialized JWT: declared algorithm, claims and signature.
Byte-level malformed token strings are outside this model; every value of
this type corresponds to a structurally parseable token string. -/
structure SignedToken where
  alg : Alg
  claims : Claims
  sig : MacSig
deriving DecidableEq, Repr

/-- `auth.Manager` (`jwt.go` lines 29-33): signing secret plus the two TTLs,
in seconds. -/
structure Manager where
  secret : String
  accessTTL : Nat
  refreshTTL : Nat
deriving DecidableEq, Repr

/-- The two error values `Manager.Parse` can return: on expiry it returns
the golang-jwt *library* sentinel `jwt.ErrTokenExpired` (`jwt.go` line 86 —
not the package-local `auth.ErrTokenExpired` of line 102, which is declared
but never returned), and for every other failure the package-local
`auth.ErrTokenInvalid` (line 89).  Distinct Go `errors.New` values are
distinct constructors. -/
inductive ParseError where
  | tokenExpired
  | tokenInvalid
deriving DecidableEq, Repr

/-- `Manager.generate` (`jwt.go` lines 54-73): builds claims with
`iat = now`, `exp = now + ttl`, signs them with HS256 under the manager's
secret.  Signing never fails in the model (Go's `SignedString` fails only on
marshalling errors). -/
def Manager.generate (m : Manager) (userID role : String) (tt : TokenType)
    (ttl now : Nat) : SignedToken :=
  let claims : Claims :=
    { userID := userID, role := role, tokenType := tt
      issuedAt := now, expiresAt := now + ttl }
  { alg := .HS256, claims := claims
    sig := { alg := .HS256, secret := m.secret, payload := claims } }

/-- `Manager.GenerateAccessToken` (`jwt.go` lines 45-47). -/
def Manager.GenerateAccessToken (m : Manager) (userID role : String) (now : Nat) :
    SignedToken :=
  m.generate userID role .access m.accessTTL now

/-- `Manager.GenerateRefreshToken` (`jwt.go` lines 50-52). -/
def Manager.GenerateRefreshToken (m : Manager) (userID role : String) (now : Nat) :
    SignedToken :=
  m.generate userID role .refresh m.refreshTTL now

/-- `Manager.Parse` (`jwt.go` lines 75-98) over `golang-jwt/v5` semantics:
the keyfunc rejects non-HMAC methods; the signature is verified against the
manager's secret; claims validation then fails with `ErrTokenExpired` unless
the current time is strictly before `exp` (jwt/v5 `verifyExpiresAt`); any
non-expiry failure is collapsed to `ErrTokenInvalid` by the `errors.Is`
switch in `Parse`. -/
def Manager.Parse (m : Manager) (tok : SignedToken) (now : Nat) :
    Except ParseError Claims :=
  if ¬ tok.alg.isHMAC then
    .error .tokenInvalid
  else if tok.sig ≠ { alg := tok.alg, secret := m.secret, payload := tok.claims } then
    .error .tokenInvalid
  else if ¬ now < tok.claims.expiresAt then
    .error .tokenExpired
  else
    .ok tok.claims

/- ===================== golang.org/x/crypto/bcrypt (symbolic) ===================== -/

/-- Symbolic bcrypt digest of a password: an injective tagged string.  The
cost factor changes only the work factor, not the compare semantics, so it
is not recorded in the digest. -/
def bcryptHashString (password : String) : String :=
  "$2a$" ++ password

/-- `bcrypt.GenerateFromPassword`: fails only when the cost is out of range
(Go: cost > 31), otherwise returns the digest. -/
def bcryptGenerateFromPassword (password : String) (cost : Nat) :
    Except String String :=
  if cost > 31 then .error "crypto/bcrypt: cost out of range"
  else .ok (bcryptHashString password)

/-- `bcrypt.CompareHashAndPassword`: succeeds exactly when the stored digest
is the digest of the offered password (ideal, collision-free hash). -/
def bcryptCompareHashAndPassword (hash password : String) : Bool :=
  hash = bcryptHashString password

/- ===================== internal/models/entities/user_entity.go ===================== -/

/-- `entities.User` — the fields the authentication core reads.  GORM
timestamps and associations are irrelevant to every claim and omitted. -/
structure User where
  id : String
  email : String
  passwordHash : String
  username : String
  role : String
deriving DecidableEq, Repr

/-- The Go zero value `entities.User{}` left by a failed `First` query. -/
def zeroUser : User :=
  { id := "", email := "", passwordHash := "", username := "", role := "" }

/- ===================== internal/repositories (user_repo) ===================== -/

/-- Outcome of the underlying GORM `First` query: a row, `ErrRecordNotFound`,
or any other database error (connection failure, timeout, ...). -/
inductive GormResult (α : Type) where
  | ok (a : α)
  | recordNotFound
  | dbError (msg : String)
deriving DecidableEq, Repr

/-- Errors surfaced by the repository layer (`repositories.ErrNotFound`,
`repositories.ErrDuplicateKey`, or any other error an implementation of the
`UserRepository` interface may return). -/
inductive RepoErr where
  | notFound
  | duplicateKey
  | other (msg : String)
deriving DecidableEq, Repr

/-- A Go `(*entities.User, error)` pair: possibly-nil pointer, possibly-nil
error. -/
def RepoUserResult : Type := Option User × Option RepoErr

/-- `userRepo.FindByID` (user repo lines 44-55): maps `ErrRecordNotFound` to
`(nil, ErrNotFound)`; any other query error is only logged and the function
returns the zero-value record with a `nil` error; on success it returns the
row with a `nil` error. -/
def userRepoFindByID : GormResult User → Option User × Option RepoErr
  | .ok u => (some u, none)
  | .recordNotFound => (none, some .notFound)
  | .dbError _ => (some zeroUser, none)

/-- `userRepo.FindByEmail` (user repo lines 57-67): same shape as
`FindByID`. -/
def userRepoFindByEmail : GormResult User → Option User × Option RepoErr
  | .ok u => (some u, none)
  | .recordNotFound => (none, some .notFound)
  | .dbError _ => (some zeroUser, none)

/-- The GORM `First(&u, "email = ?", email)` query against an in-memory
relational store, absent infrastructure failures: first row whose email
matches, else `ErrRecordNotFound`. -/
def gormQueryByEmail (store : List User) (email : String) : GormResult User :=
  match store.find? (fun u => u.email == email) with
  | some u => .ok u
  | none => .recordNotFound

/- ===================== internal/services (user_service) ===================== -/

/-- The sentinel errors of the service layer (user service lines 193-197)
plus `repositories.ErrNotFound` passed through verbatim by `Login`, plus
`fmt.Errorf`-wrapped errors. -/
inductive ServiceError where
  | emailTaken
  | invalidCredentials
  | invalidRefreshToken
  | repoNotFound
  | wrapped (msg : String)
deriving DecidableEq, Repr

/-- `services.TokenPair` (user service lines 27-30). -/
structure TokenPair where
  accessToken : SignedToken
  refreshToken : SignedToken
deriving DecidableEq, Repr

/-- `UserService.issueTokenPair` (user service lines 181-191): one access
and one refresh token for the same subject, both minted at the current
time. -/
def issueTokenPair (m : Manager) (userID role : String) (now : Nat) : TokenPair :=
  { accessToken := m.GenerateAccessToken userID role now
    refreshToken := m.GenerateRefreshToken userID role now }

/-- Result of `UserService.Login`.  `nilPanic` marks the run that evaluates
`user.PasswordHash` while `user` is a nil pointer — in Go a runtime panic,
caught only by the `Recovery` middleware. -/
inductive LoginOutcome where
  | ok (user : User) (pair : TokenPair)
  | err (e : ServiceError)
  | nilPanic
deriving DecidableEq, Repr

/-- The tail of `Login` from the `bcrypt.CompareHashAndPassword` call on
(user service lines 99-111): dereferences the user pointer, compares the
password, then issues the pair. -/
def loginCompareStep (m : Manager) (userPtr : Option User) (password : String)
    (now : Nat) : LoginOutcome :=
  match userPtr with
  | none => .nilPanic
  | some user =>
      if bcryptCompareHashAndPassword user.passwordHash password then
        .ok user (issueTokenPair m user.id user.role now)
      else
        .err .invalidCredentials

/-- `UserService.Login` (user service lines 89-112), parametric in the
repository's `(user, err)` response for the given email: when the lookup
error is `ErrNotFound` the error itself is returned; for any other non-nil
error control falls through (the outer `if` has no `else`) to the password
comparison, as does the nil-error path. -/
def userServiceLogin (m : Manager) (lookup : Option User × Option RepoErr)
    (password : String) (now : Nat) : LoginOutcome :=
  match lookup with
  | (_, some RepoErr.notFound) => .err .repoNotFound
  | (userPtr, _) => loginCompareStep m userPtr password now

/-- `UserService.Login` against the GORM-backed repository and an in-memory
store. -/
def userServiceLoginStore (m : Manager) (store : List User) (email password : String)
    (now : Nat) : LoginOutcome :=
  userServiceLogin m (userRepoFindByEmail (gormQueryByEmail store email)) password now

/-- `services.RegisterInput` (user service lines 16-20). -/
structure RegisterInput where
  email : String
  username : String
  password : String
deriving DecidableEq, Repr

/-- Observable outcome of one `UserService.Register` run: the returned
value, whether the bcrypt hash was computed, and the record handed to
`repo.Create` (if that call was reached). -/
structure RegisterOutcome where
  result : Except ServiceError User
  hashedPassword : Bool
  createAttempted : Option User
deriving DecidableEq, Repr

/-- `UserService.Register` (user service lines 60-86), parametric in the
lookup response and in the `repo.Create` outcome: a `nil` lookup error means
the email was found and registration fails fast with `ErrEmailTaken`;
otherwise the password is hashed and the record persisted with role
`"user"`; `BeforeCreate` assigns the fresh id `newID`. -/
def userServiceRegister (lookup : Option User × Option RepoErr)
    (input : RegisterInput) (cost : Nat) (newID : String)
    (createErr : Option String) : RegisterOutcome :=
  match lookup.2 with
  | none =>
      { result := .error .emailTaken, hashedPassword := false, createAttempted := none }
  | some _ =>
      match bcryptGenerateFromPassword input.password cost with
      | .error e =>
          { result := .error (.wrapped ("hashing password: " ++ e))
            hashedPassword := true, createAttempted := none }
      | .ok hash =>
          let user : User :=
            { id := newID, email := input.email, passwordHash := hash
              username := input.username, role := "user" }
          match createErr with
          | some e =>
              { result := .error (.wrapped ("creating user: " ++ e))
                hashedPassword := true, createAttempted := some user }
          | none =>
              { result := .ok user, hashedPassword := true
                createAttempted := some user }

/-- `UserService.Register` against the GORM-backed repository: the lookup is
the email query over the store, a successful create appends the record. -/
def userServiceRegisterStore (store : List User) (input : RegisterInput)
    (cost : Nat) (newID : String) : RegisterOutcome × List User :=
  let o := userServiceRegister (userRepoFindByEmail (gormQueryByEmail store input.email))
    input cost newID none
  match o.result with
  | .ok u => (o, store ++ [u])
  | .error _ => (o, store)

/-- Result of `UserService.RefreshTokens`; `nilPanic` as in `Login`. -/
inductive RefreshOutcome where
  | ok (pair : TokenPair)
  | err (e : ServiceError)
  | nilPanic
deriving DecidableEq, Repr

/-- `UserService.RefreshTokens` (user service lines 115-140), parametric in
the repository lookup function: parses the token, requires kind `refresh`,
then resolves the subject by calling `FindByEmail` with `claims.UserID`
(the token's subject ID is passed where an email is expected), and issues a
fresh pair from the found record. -/
def userServiceRefreshTokens (m : Manager)
    (repoFindByEmail : String → Option User × Option RepoErr)
    (tok : SignedToken) (now : Nat) : RefreshOutcome :=
  match m.Parse tok now with
  | .error _ => .err .invalidRefreshToken
  | .ok claims =>
      if claims.tokenType ≠ TokenType.refresh then
        .err .invalidRefreshToken
      else
        match repoFindByEmail claims.userID with
        | (_, some _) => .err .invalidCredentials
        | (some user, none) => .ok (issueTokenPair m user.id user.role now)
        | (none, none) => .nilPanic

/-- `UserService.RefreshTokens` against the GORM-backed repository. -/
def userServiceRefreshTokensStore (m : Manager) (store : List User)
    (tok : SignedToken) (now : Nat) : RefreshOutcome :=
  userServiceRefreshTokens m
    (fun email => userRepoFindByEmail (gormQueryByEmail store email)) tok now

/- ===================== internal/handlers/auth_handler.go ===================== -/

/-- The HTTP response the client observes from `POST /auth/login`
(`auth_handler.go` lines 58-92 plus the `Recovery` middleware for the panic
run): status code and error/body discriminator.  `ErrInvalidCredentials`
maps to 401 with the error's message; every other service error falls to
`utils.InternalError` (500, "internal server error"); a panic is converted
by `Recovery` to the same 500 envelope. -/
def authHandlerLogin (outcome : LoginOutcome) : Nat × String :=
  match outcome with
  | .ok _ _ => (200, "ok")
  | .err .invalidCredentials => (401, "invalid email or password")
  | .err _ => (500, "internal server error")
  | .nilPanic => (500, "internal server error")

/- ===================== internal/middleware/middleware.go ===================== -/

/-- ASCII lower-casing of one character (the fold relevant to the header
schemes compared by the middleware). -/
def asciiLowerChar (c : Char) : Char :=
  if 65 ≤ c.toNat ∧ c.toNat ≤ 90 then Char.ofNat (c.toNat + 32) else c

/-- ASCII lower-casing of a string. -/
def asciiLower (s : String) : String :=
  String.mk (s.data.map asciiLowerChar)

/-- Go `strings.EqualFold`, restricted to the ASCII fold (the only strings
compared here are header schemes). -/
def stringsEqualFold (a b : String) : Bool :=
  asciiLower a == asciiLower b

/-- The `Authorization` header as seen by `Authenticate` after Gin's header
lookup and `strings.SplitN(header, " ", 2)`: absent/empty, a single word
(no space, so the split yields one part), or a scheme followed by a token.
Token strings being symbolic, the part after the scheme is a
`SignedToken`. -/
inductive AuthHeader where
  | missing
  | oneWord (w : String)
  | twoParts (scheme : String) (tok : SignedToken)
deriving DecidableEq, Repr

/-- Per-request outcome of the `Authenticate` middleware: a 401 rejection
with the given envelope message and `c.Abort()` (no identity in the
context), or `c.Set(userID)`, `c.Set(role)` and `c.Next()`. -/
inductive AuthOutcome where
  | unauthorized (msg : String)
  | proceed (userID role : String)
deriving DecidableEq, Repr

/-- The guard of the middleware's `switch err { case auth.ErrTokenExpired: }`
(`middleware.go` lines 121-123).  Go's `switch err` compares error values by
identity; `Parse` returns the library sentinel `jwt.ErrTokenExpired` on
expiry and `auth.ErrTokenInvalid` otherwise, and the local sentinel
`auth.ErrTokenExpired` the case compares against is a distinct `errors.New`
value from both, so the comparison is false for every error `Parse` can
return — the case arm is dead code. -/
def errIsAuthTokenExpired : ParseError → Bool
  | .tokenExpired => false
  | .tokenInvalid => false

/-- `middleware.Authenticate` (`middleware.go` lines 101-142): missing
header and malformed header are rejected; a parse failure is rejected
through the `switch err` — whose `auth.ErrTokenExpired` arm never matches
any error `Parse` returns (see `errIsAuthTokenExpired`), so every parse
failure, expiry included, yields "invalid token"; a parsed token whose kind
is not `access` is rejected with "invalid token type"; only then are the
user ID and role injected. -/
def authenticate (m : Manager) (header : AuthHeader) (now : Nat) : AuthOutcome :=
  match header with
  | .missing => .unauthorized "authorization header required"
  | .oneWord _ => .unauthorized "invalid authorization header format"
  | .twoParts scheme tok =>
      if ¬ stringsEqualFold scheme "bearer" then
        .unauthorized "invalid authorization header format"
      else
        match m.Parse tok now with
        | .error e =>
            if errIsAuthTokenExpired e then .unauthorized "token has expired"
            else .unauthorized "invalid token"
        | .ok claims =>
            if claims.tokenType ≠ TokenType.access then
              .unauthorized "invalid token type"
            else
              .proceed claims.userID claims.role

/- ===================== pkg/storage/s3.go + attachment service ===================== -/

/-- The value the attachment service reads off a successful
`storage.Client.Upload`: the object URL (and the presigned URL field the
service forwards to the handler). -/
structure UploadOutput where
  url : String
  presignedURL : String
deriving DecidableEq, Repr

/-- `entities.Attachment` — the fields written by the upload saga. -/
structure Attachment where
  noteID : String
  messageID : String
  url : String
  name : String
  mimeType : String
  size : Int
  s3Key : String
deriving DecidableEq, Repr

/-- `services.FileUploadInput` (attachment service lines 138-143): the file
handle is abstracted away; the header carries the client file name, size and
declared content type. -/
structure FileUploadInput where
  noteID : String
  messageID : String
  fileName : String
  size : Int
  contentTypeHeader : String
deriving DecidableEq, Repr

/-- Side effects of one saga run, in execution order. -/
inductive SagaEvent where
  | s3Upload (key : String)
  | dbCreate (att : Attachment)
  | s3Delete (key : String)
deriving DecidableEq, Repr

/-- Go `path/filepath.Base` (slash-separated paths): empty path gives ".",
trailing slashes are dropped, then everything up to the last slash; an
all-slash path gives "/". -/
def filepathBase (path : String) : String :=
  if path = "" then "."
  else
    let stripped := (path.toList.reverse.dropWhile (· = '/')).reverse
    if stripped = [] then "/"
    else String.mk ((stripped.reverse.takeWhile (· ≠ '/')).reverse)

/-- The sanitized file name (attachment service lines 166-167):
`filepath.Base` then spaces replaced by underscores. -/
def safeFileName (fileName : String) : String :=
  (filepathBase fileName).replace " " "_"

/-- The storage key (attachment service lines 169-173):
`attachments/<noteID>/<unixMilli>_<safeName>`. -/
def attachmentS3Key (noteID : String) (nowMilli : Nat) (fileName : String) : String :=
  "attachments/" ++ noteID ++ "/" ++ toString nowMilli ++ "_" ++ safeFileName fileName

/-- The effective content type (attachment service lines 177-180): the
client's header, defaulting to `application/octet-stream`. -/
def effectiveContentType (header : String) : String :=
  if header = "" then "application/octet-stream" else header

/-- The record handed to `repo.Create` (attachment service lines 200-208). -/
def buildAttachment (input : FileUploadInput) (nowMilli : Nat) (url : String) :
    Attachment :=
  { noteID := input.noteID, messageID := input.messageID, url := url
    name := input.fileName, mimeType := effectiveContentType input.contentTypeHeader
    size := input.size, s3Key := attachmentS3Key input.noteID nowMilli input.fileName }

/-- Result of one `AttachmentService.Create` run: the Go return values
`(att, presignedURL, err)`, the side-effect trace, and the attachment
records visible in the metadata store afterwards. -/
structure SagaResult where
  att : Option Attachment
  presignedURL : String
  err : Option String
  events : List SagaEvent
  store : List Attachment
deriving DecidableEq, Repr

/-- `AttachmentService.Create` (attachment service lines 163-233),
parametric in the outcomes of the three external calls: derive the key and
content type, upload (failure aborts with the wrapped upload error and no
further effect), then write the metadata record (failure triggers the
compensating `s3Client.Delete` on the same key — whose own failure is only
logged — and returns the wrapped original write error; the store is
unchanged); on success the record is appended and the presigned URL
returned. -/
def attachmentServiceCreate (store : List Attachment) (input : FileUploadInput)
    (nowMilli : Nat) (uploadOutcome : Except String UploadOutput)
    (createErr : Option String) (deleteErr : Option String) : SagaResult :=
  let key := attachmentS3Key input.noteID nowMilli input.fileName
  match uploadOutcome with
  | .error e =>
      { att := none, presignedURL := "",
        err := some ("uploading attachment to S3: " ++ e)
        events := [.s3Upload key], store := store }
  | .ok out =>
      let att := buildAttachment input nowMilli out.url
      match createErr with
      | some e =>
          { att := none, presignedURL := ""
            err := some ("saving attachment metadata: " ++ e)
            events := [.s3Upload key, .dbCreate att, .s3Delete key]
            store := store }
      | none =>
          { att := some att, presignedURL := out.presignedURL, err := none
            events := [.s3Upload key, .dbCreate att]
            store := store ++ [att] }

/-- Whether the middleware run injected an identity into the request
context (i.e. reached `c.Set`/`c.Next`). -/
def AuthOutcome.injectsIdentity : AuthOutcome → Bool
  | .proceed _ _ => true
  | .unauthorized _ => false

end Splose

namespace Splose

/- ===================== sanity examples (definitions behave) ===================== -/

example :
    (Manager.mk "s" 900 604800).Parse
      ((Manager.mk "s" 900 604800).GenerateAccessToken "u1" "user" 0) 10 =
    .ok { userID := "u1", role := "user", tokenType := .access
          issuedAt := 0, expiresAt := 900 } := by decide

example :
    (Manager.mk "s" 900 604800).Parse
      ((Manager.mk "other" 900 604800).GenerateAccessToken "u1" "user" 0) 10 =
    .error .tokenInvalid := by decide

end Splose

namespace Splose

/- ===================== helper lemmas ===================== -/

/-- A bcrypt digest is never the empty string, so the zero-value user's
`PasswordHash` matches no password. -/
theorem bcryptHashString_ne_empty (pw : String) : bcryptHashString pw ≠ "" := by
  unfold bcryptHashString
  intro h
  have h2 : ("$2a$" ++ pw).length = ("" : String).length := by rw [h]
  simp [String.length_append] at h2
  exact absurd h2.1 (by decide)

/-- Comparing any password against the zero-value user's empty hash fails. -/
theorem compare_empty_hash_false (pw : String) :
    bcryptCompareHashAndPassword "" pw = false := by
  unfold bcryptCompareHashAndPassword
  simp only [decide_eq_false_iff_not]
  intro h
  exact bcryptHashString_ne_empty pw h.symm

/- ===================== C4 ===================== -/

/-- C4: for every subject and role, parsing a freshly issued access token
with the same secret succeeds and returns the same subject, role and kind
`access` whenever the current time is strictly before the token's expiry
`issueTime + accessTTL`, and fails with the `Expired` error at or after the
expiry. -/
theorem parse_of_generateAccessToken (m : Manager) (uid role : String) (t now : Nat) :
    m.Parse (m.GenerateAccessToken uid role t) now =
      (if now < t + m.accessTTL then
        Except.ok { userID := uid, role := role, tokenType := TokenType.access
                    issuedAt := t, expiresAt := t + m.accessTTL }
      else Except.error ParseError.tokenExpired) := by
  by_cases h : now < t + m.accessTTL <;>
    simp [Manager.Parse, Manager.GenerateAccessToken, Manager.generate, Alg.isHMAC, h]

/- ===================== C7 ===================== -/

/-- C7: a token whose signature was produced under a secret different from
the verifier's configured secret always fails `Parse` with `ErrTokenInvalid`
(signature verification precedes claims validation), regardless of its
declared algorithm, claims or expiry; no claims are ever returned. -/
theorem parse_foreign_secret_always_fails (m : Manager) (tok : SignedToken)
    (now : Nat) (h : tok.sig.secret ≠ m.secret) :
    m.Parse tok now = .error .tokenInvalid := by
  have hne : tok.sig ≠ { alg := tok.alg, secret := m.secret, payload := tok.claims } := by
    intro he
    exact h (by rw [he])
  unfold Manager.Parse
  by_cases halg : tok.alg.isHMAC <;> simp [halg, hne]

/-- Witness for C7 at a concrete input: a token minted under the secret
`"attacker"` is rejected by the manager configured with `"server"`. -/
theorem parse_foreign_secret_always_fails_witness :
    ((Manager.mk "attacker" 900 604800).GenerateAccessToken "u1" "user" 0).sig.secret ≠
      (Manager.mk "server" 900 604800).secret ∧
    (Manager.mk "server" 900 604800).Parse
      ((Manager.mk "attacker" 900 604800).GenerateAccessToken "u1" "user" 0) 0 =
      .error .tokenInvalid :=
  ⟨by decide,
   parse_foreign_secret_always_fails (Manager.mk "server" 900 604800)
     ((Manager.mk "attacker" 900 604800).GenerateAccessToken "u1" "user" 0) 0 (by decide)⟩

/- ===================== C6 ===================== -/

/-- C6: a request presenting a refresh-kind token to the `Authenticate`
gate is always rejected with a 401, even while the token's signature is
valid and it is unexpired (rejection message "invalid token type"; once
expired the rejection is the generic "invalid token", the switch's
`auth.ErrTokenExpired` arm being dead); and for no header scheme does such
a token lead to identity injection. -/
theorem authenticate_rejects_refresh_tokens (m : Manager) (uid role : String)
    (t now : Nat) :
    (authenticate m (.twoParts "Bearer" (m.GenerateRefreshToken uid role t)) now =
      (if now < t + m.refreshTTL then AuthOutcome.unauthorized "invalid token type"
       else AuthOutcome.unauthorized "invalid token")) ∧
    (∀ scheme : String,
      (authenticate m (.twoParts scheme (m.GenerateRefreshToken uid role t))
          now).injectsIdentity = false) := by
  constructor
  · have hb : stringsEqualFold "Bearer" "bearer" = true := by decide
    by_cases h : now < t + m.refreshTTL <;>
      simp [authenticate, Manager.Parse, Manager.GenerateRefreshToken, Manager.generate,
        Alg.isHMAC, h, hb, errIsAuthTokenExpired]
  · intro scheme
    by_cases hs : stringsEqualFold scheme "bearer" <;>
      by_cases h : now < t + m.refreshTTL <;>
        simp [authenticate, Manager.Parse, Manager.GenerateRefreshToken, Manager.generate,
          Alg.isHMAC, h, hs, AuthOutcome.injectsIdentity, errIsAuthTokenExpired]

end Splose

namespace Splose

/- ===================== C1 ===================== -/

/-- C1 fails on the code: `Login` returns `repositories.ErrNotFound` when
the email lookup fails with not-found but `ErrInvalidCredentials` when the
password comparison fails, and the handler maps the former to a 500
"internal server error" and the latter to a 401 "invalid email or password"
— the caller can distinguish "email not found" from "wrong password".
Evaluated at the failing input: email `"a@b.com"`, password `"guess"`,
against an empty store versus a store holding that email with a different
password. -/
theorem login_distinguishes_missing_email_from_wrong_password :
    userServiceLoginStore (Manager.mk "s" 900 604800) [] "a@b.com" "guess" 0 =
      .err .repoNotFound ∧
    userServiceLoginStore (Manager.mk "s" 900 604800)
      [{ id := "u1", email := "a@b.com", passwordHash := bcryptHashString "correct",
         username := "alice", role := "user" }] "a@b.com" "guess" 0 =
      .err .invalidCredentials ∧
    ServiceError.repoNotFound ≠ ServiceError.invalidCredentials ∧
    authHandlerLogin (.err .repoNotFound) = (500, "internal server error") ∧
    authHandlerLogin (.err .invalidCredentials) = (401, "invalid email or password") := by
  decide

/- ===================== C2 ===================== -/

/-- C2 fails on the code: `RefreshTokens` re-resolves the token's subject by
calling `FindByEmail` with the subject's user ID.  For the existing user
`u1` (ID `"u1"`, email `"u1@example.com"`) and a valid, unexpired refresh
token whose subject is `"u1"`, the email query finds no row, so the refresh
fails with `ErrInvalidCredentials` instead of returning a fresh pair. -/
theorem refreshTokens_resolves_subject_by_email_query :
    userServiceRefreshTokensStore (Manager.mk "s" 900 604800)
      [{ id := "u1", email := "u1@example.com", passwordHash := bcryptHashString "pw",
         username := "alice", role := "user" }]
      ((Manager.mk "s" 900 604800).GenerateRefreshToken "u1" "user" 0) 10 =
      .err .invalidCredentials := by
  decide

/- ===================== C3 ===================== -/

/-- C3: when the blob upload succeeds and the metadata write fails, the saga
attempts the compensating delete on exactly the storage key it uploaded to,
no attachment record is visible afterwards (the store is unchanged and no
record is returned), and the wrapped original metadata-write error is
returned — for every outcome of the compensating delete, including its
failure. -/
theorem uploadSaga_compensates_on_metadata_failure (store : List Attachment)
    (input : FileUploadInput) (nowMilli : Nat) (out : UploadOutput) (e : String)
    (deleteErr : Option String) :
    (attachmentServiceCreate store input nowMilli (.ok out) (some e) deleteErr).events =
      [SagaEvent.s3Upload (attachmentS3Key input.noteID nowMilli input.fileName),
       SagaEvent.dbCreate (buildAttachment input nowMilli out.url),
       SagaEvent.s3Delete (attachmentS3Key input.noteID nowMilli input.fileName)] ∧
    (attachmentServiceCreate store input nowMilli (.ok out) (some e) deleteErr).store =
      store ∧
    (attachmentServiceCreate store input nowMilli (.ok out) (some e) deleteErr).att =
      none ∧
    (attachmentServiceCreate store input nowMilli (.ok out) (some e) deleteErr).err =
      some ("saving attachment metadata: " ++ e) :=
  ⟨rfl, rfl, rfl, rfl⟩

/- ===================== C5 ===================== -/

/-- C5: the saga's side-effect traces, for every combination of call
outcomes.  A failed upload produces the trace `[s3Upload]` alone — no
metadata write and no compensation, whatever the injected metadata outcome;
a successful run is `[s3Upload, dbCreate]`; a metadata failure is
`[s3Upload, dbCreate, s3Delete]`.  In every trace the blob write precedes
any metadata write and the compensating delete appears only immediately
after a failed metadata write. -/
theorem uploadSaga_event_ordering (store : List Attachment)
    (input : FileUploadInput) (nowMilli : Nat) (e : String)
    (createErr : Option String) (out : UploadOutput) (dbe : String)
    (deleteErr : Option String) :
    (attachmentServiceCreate store input nowMilli (.error e) createErr deleteErr).events =
      [SagaEvent.s3Upload (attachmentS3Key input.noteID nowMilli input.fileName)] ∧
    (attachmentServiceCreate store input nowMilli (.ok out) none deleteErr).events =
      [SagaEvent.s3Upload (attachmentS3Key input.noteID nowMilli input.fileName),
       SagaEvent.dbCreate (buildAttachment input nowMilli out.url)] ∧
    (attachmentServiceCreate store input nowMilli (.ok out) (some dbe) deleteErr).events =
      [SagaEvent.s3Upload (attachmentS3Key input.noteID nowMilli input.fileName),
       SagaEvent.dbCreate (buildAttachment input nowMilli out.url),
       SagaEvent.s3Delete (attachmentS3Key input.noteID nowMilli input.fileName)] :=
  ⟨rfl, rfl, rfl⟩

/- ===================== C8 ===================== -/

/-- C8: when the user lookup fails with any error other than
`ErrNotFound`, `Login`'s outer `if` falls through and the password
comparison is invoked on the absent (nil) user record — a nil-pointer
dereference — instead of short-circuiting to `InvalidCredentials`. -/
theorem login_compares_password_despite_failed_lookup (m : Manager) (e : RepoErr)
    (pw : String) (now : Nat) (h : e ≠ RepoErr.notFound) :
    userServiceLogin m (none, some e) pw now = .nilPanic ∧
    userServiceLogin m (none, some e) pw now ≠ .err .invalidCredentials := by
  cases e with
  | notFound => exact absurd rfl h
  | duplicateKey => exact ⟨rfl, by simp [userServiceLogin, loginCompareStep]⟩
  | other msg => exact ⟨rfl, by simp [userServiceLogin, loginCompareStep]⟩

/-- Witness for C8 at a concrete input: a lookup failing with a connection
error leads to the dereference of the nil record. -/
theorem login_compares_password_despite_failed_lookup_witness :
    (RepoErr.other "connection refused" ≠ RepoErr.notFound) ∧
    (userServiceLogin (Manager.mk "s" 900 604800)
        (none, some (RepoErr.other "connection refused")) "pw" 0 = .nilPanic ∧
     userServiceLogin (Manager.mk "s" 900 604800)
        (none, some (RepoErr.other "connection refused")) "pw" 0 ≠
       .err .invalidCredentials) :=
  ⟨by decide,
   login_compares_password_despite_failed_lookup (Manager.mk "s" 900 604800)
     (RepoErr.other "connection refused") "pw" 0 (by decide)⟩

/- ===================== C9 ===================== -/

/-- C9: when a record with the given email already exists, a second
`Register` with that email fails with `EmailTaken`, performs no password
hashing, never reaches `repo.Create`, and leaves the credential store
unchanged. -/
theorem register_duplicate_email_fails_fast (store : List User)
    (input : RegisterInput) (cost : Nat) (newID : String)
    (h : ∃ u ∈ store, u.email = input.email) :
    (userServiceRegisterStore store input cost newID).1.result =
      .error .emailTaken ∧
    (userServiceRegisterStore store input cost newID).1.hashedPassword = false ∧
    (userServiceRegisterStore store input cost newID).1.createAttempted = none ∧
    (userServiceRegisterStore store input cost newID).2 = store := by
  obtain ⟨u, hu, he⟩ := h
  cases hfind : store.find? (fun w => w.email == input.email) with
  | none =>
      have hnone := List.find?_eq_none.mp hfind u hu
      simp [he] at hnone
  | some v =>
      simp [userServiceRegisterStore, userServiceRegister, gormQueryByEmail,
        userRepoFindByEmail, hfind]

/-- Witness for C9 at a concrete input: re-registering `"a@b.com"` over a
store that already holds it. -/
theorem register_duplicate_email_fails_fast_witness :
    (∃ u ∈ [({ id := "u1", email := "a@b.com", passwordHash := "$2a$pw",
               username := "alice", role := "user" } : User)],
        u.email = ("a@b.com" : String)) ∧
    ((userServiceRegisterStore
        [{ id := "u1", email := "a@b.com", passwordHash := "$2a$pw",
           username := "alice", role := "user" }]
        (RegisterInput.mk "a@b.com" "bob" "secretpw") 12 "u2").1.result =
      .error .emailTaken ∧
     (userServiceRegisterStore
        [{ id := "u1", email := "a@b.com", passwordHash := "$2a$pw",
           username := "alice", role := "user" }]
        (RegisterInput.mk "a@b.com" "bob" "secretpw") 12 "u2").1.hashedPassword = false ∧
     (userServiceRegisterStore
        [{ id := "u1", email := "a@b.com", passwordHash := "$2a$pw",
           username := "alice", role := "user" }]
        (RegisterInput.mk "a@b.com" "bob" "secretpw") 12 "u2").1.createAttempted = none ∧
     (userServiceRegisterStore
        [{ id := "u1", email := "a@b.com", passwordHash := "$2a$pw",
           username := "alice", role := "user" }]
        (RegisterInput.mk "a@b.com" "bob" "secretpw") 12 "u2").2 =
       [{ id := "u1", email := "a@b.com", passwordHash := "$2a$pw",
          username := "alice", role := "user" }]) :=
  ⟨by decide,
   register_duplicate_email_fails_fast
     [{ id := "u1", email := "a@b.com", passwordHash := "$2a$pw",
        username := "alice", role := "user" }]
     (RegisterInput.mk "a@b.com" "bob" "secretpw") 12 "u2" (by decide)⟩

/- ===================== C10 ===================== -/

/-- C10: for every database failure other than record-not-found, both
`userRepo.FindByID` and `userRepo.FindByEmail` return a `nil` error together
with the zero-value user record, so `Login` proceeds to the password
comparison against the empty hash (failing as `InvalidCredentials`, exactly
like a wrong password), `Register` reports the email as taken, and
`RefreshTokens` even mints a fresh token pair for the empty user ID — no
caller can observe the store failure. -/
theorem userRepo_swallows_db_errors (msg : String) (m : Manager) (pw : String)
    (now : Nat) (input : RegisterInput) (cost : Nat) (newID : String)
    (createErr : Option String) (uid role : String) (t now2 : Nat) :
    userRepoFindByID (.dbError msg) = (some zeroUser, none) ∧
    userRepoFindByEmail (.dbError msg) = (some zeroUser, none) ∧
    userServiceLogin m (userRepoFindByEmail (.dbError msg)) pw now =
      .err .invalidCredentials ∧
    (userServiceRegister (userRepoFindByEmail (.dbError msg)) input cost newID
        createErr).result = .error .emailTaken ∧
    userServiceRefreshTokens m (fun _ => userRepoFindByEmail (.dbError msg))
        (m.GenerateRefreshToken uid role t) now2 =
      (if now2 < t + m.refreshTTL then .ok (issueTokenPair m "" "" now2)
       else .err .invalidRefreshToken) := by
  refine ⟨rfl, rfl, ?_, rfl, ?_⟩
  · simp [userServiceLogin, userRepoFindByEmail, loginCompareStep, zeroUser,
      compare_empty_hash_false]
  · by_cases h : now2 < t + m.refreshTTL <;>
      simp [userServiceRefreshTokens, Manager.Parse, Manager.GenerateRefreshToken,
        Manager.generate, Alg.isHMAC, h, userRepoFindByEmail, zeroUser, issueTokenPair]

end Splose
